import Mathlib

namespace Editor3D

/-!
# Verification of the editor3d marker-to-skeleton pipeline and animation runtime

Shallow embedding of the core algorithms of the `editor3d` repository:

* the skeleton synthesizer (`createBoneHierarchy`, `handleGenerateBones` in
  `auto-rigger-modal.tsx`),
* the marker drag algorithm (`handleMouseMove` in `auto-rigger-modal.tsx`),
* model-load normalization and request-id fencing (the model-load effect in the
  3D viewer component),
* the animation retargeting runtime (`createInPlaceClip`, the in-place toggle
  effect, `onAnimationLoad`, `handleSpeedChange`, and the per-frame enthusiasm
  block of the 3D viewer component).

Numeric code is modelled with exact arithmetic: rationals where the source does
plain arithmetic, reals where the source calls trigonometric functions.
-/

/-- Three-dimensional vector with exact rational coordinates (models `THREE.Vector3` where the
source only performs field arithmetic). -/
structure Vec3 where
  x : ℚ
  y : ℚ
  z : ℚ
  deriving DecidableEq, Repr

/-- Componentwise sum, modelling `Vector3.add`. -/
def Vec3.add (a b : Vec3) : Vec3 := ⟨a.x + b.x, a.y + b.y, a.z + b.z⟩

/-- Componentwise difference, modelling `Vector3.sub`. -/
def Vec3.sub (a b : Vec3) : Vec3 := ⟨a.x - b.x, a.y - b.y, a.z - b.z⟩

/-- Scalar multiple, modelling `Vector3.multiplyScalar`. -/
def Vec3.smul (k : ℚ) (a : Vec3) : Vec3 := ⟨k * a.x, k * a.y, k * a.z⟩

/-- Dot product, modelling `Vector3.dot`. -/
def Vec3.dot (a b : Vec3) : ℚ := a.x * b.x + a.y * b.y + a.z * b.z

/-! ## Markers (auto-rigger-modal.tsx)

The 13 fixed anatomical markers, with the identifier strings used by the
`markers` state array of `AutoRiggerModal`. -/

/-- The 13 fixed marker identifiers of the auto rigger. -/
inductive MarkerId where
  | chin | neckBase | leftShoulder | rightShoulder
  | leftElbow | rightElbow | leftWrist | rightWrist
  | groin | leftKnee | rightKnee | leftAnkle | rightAnkle
  deriving DecidableEq, Repr

/-- The identifier string of a marker, exactly as in the `markers` state array. -/
def markerIdStr : MarkerId → String
  | .chin => "chin"
  | .neckBase => "neckBase"
  | .leftShoulder => "leftShoulder"
  | .rightShoulder => "rightShoulder"
  | .leftElbow => "leftElbow"
  | .rightElbow => "rightElbow"
  | .leftWrist => "leftWrist"
  | .rightWrist => "rightWrist"
  | .groin => "groin"
  | .leftKnee => "leftKnee"
  | .rightKnee => "rightKnee"
  | .leftAnkle => "leftAnkle"
  | .rightAnkle => "rightAnkle"

/-- Models `s.charAt(0).toUpperCase() + s.slice(1)` from `createBoneHierarchy`. -/
def capitalizeFirst (s : String) : String :=
  match s.toList with
  | [] => ""
  | c :: rest => String.mk (c.toUpper :: rest)

/-- Bone name assigned in `createBoneHierarchy`:
`` `mixamorig${marker.id.charAt(0).toUpperCase() + marker.id.slice(1)}` ``. -/
def boneName (m : MarkerId) : String :=
  "mixamorig" ++ capitalizeFirst (markerIdStr m)

/-- A marker configuration: the world position of each placed marker
(`none` when the marker's `placed` flag is false). -/
def MarkerConfig : Type := MarkerId → Option Vec3

/-! ## Bones

A `THREE.Bone` as observed through `createBoneHierarchy`: a name, a position
(parent-relative for children, absolute for the root), and the list of child
bones attached with `parentBone.add(childBone)` in attachment order. -/

/-- A bone tree node. -/
inductive Bone where
  | mk (name : String) (position : Vec3) (children : List Bone)

/-- Bone name accessor. -/
def Bone.name : Bone → String
  | .mk n _ _ => n

/-- Bone position accessor. -/
def Bone.position : Bone → Vec3
  | .mk _ p _ => p

/-- Bone children accessor. -/
def Bone.children : Bone → List Bone
  | .mk _ _ c => c

mutual


/-- Structural equality test on bone trees. -/
def Bone.eqb : Bone → Bone → Bool
  | .mk n1 p1 c1, .mk n2 p2 c2 => n1 == n2 && p1 == p2 && Bone.eqbList c1 c2


/-- Structural equality test on lists of bone trees. -/
def Bone.eqbList : List Bone → List Bone → Bool
  | [], [] => true
  | a :: as, b :: bs => Bone.eqb a b && Bone.eqbList as bs
  | _, _ => false


end

instance : BEq Bone := ⟨Bone.eqb⟩

mutual


/-- Number of joints in a bone tree. -/
def countBones : Bone → Nat
  | .mk _ _ cs => 1 + countBonesList cs


/-- Number of joints in a list of bone trees. -/
def countBonesList : List Bone → Nat
  | [] => 0
  | b :: bs => countBones b + countBonesList bs


end

mutual


/-- Preorder list of the joint names of a bone tree. -/
def boneNames : Bone → List String
  | .mk n _ cs => n :: boneNamesList cs


/-- Preorder list of the joint names of a list of bone trees. -/
def boneNamesList : List Bone → List String
  | [] => []
  | b :: bs => boneNames b ++ boneNamesList bs


end

mutual


/-- Preorder search for the first bone with the given name. -/
def findBone (n : String) : Bone → Option Bone
  | .mk n' p cs =>
    if n' = n then some (.mk n' p cs) else findBoneList n cs


/-- Preorder search in a list of bone trees. -/
def findBoneList (n : String) : List Bone → Option Bone
  | [] => none
  | b :: bs =>
    match findBone n b with
    | some r => some r
    | none => findBoneList n bs


end

/-! ## Skeleton synthesis (`createBoneHierarchy`)

The source builds a `boneMap` covering every placed marker, then walks the
fixed `hierarchy` table: for every `(parentId, childrenIds)` entry it skips the
entry unless the parent's bone and marker position exist, and for each child
whose bone and marker position exist it sets the child's position to
`childPos - parentPos` and attaches it with `parentBone.add(childBone)`.
Finally it returns `boneMap.get("groin")`, or `null` when the groin marker was
never placed, after copying the groin marker's absolute position into the root.

The returned value is therefore the tree of bones reachable from the groin
bone: a bone named after marker `c` sits under the bone of its table parent
`par` exactly when both markers are placed, and carries position
`pos c - pos par`.  (Bones whose table parent is unplaced also exist in the
source's `boneMap` but are unreachable from the returned root, the hierarchy
table being a tree; they are not part of the returned value.)  The definition
below constructs that reachable tree directly, following the table in the
source's attachment order. -/

/-- The fixed anatomical hierarchy table from `createBoneHierarchy`. -/
def hierarchy : List (MarkerId × List MarkerId) :=
  [ (.groin, [.neckBase, .leftKnee, .rightKnee]),
    (.neckBase, [.chin, .leftShoulder, .rightShoulder]),
    (.leftShoulder, [.leftElbow]),
    (.leftElbow, [.leftWrist]),
    (.rightShoulder, [.rightElbow]),
    (.rightElbow, [.rightWrist]),
    (.leftKnee, [.leftAnkle]),
    (.rightKnee, [.rightAnkle]) ]

/-- All `(parent, child)` pairs of the hierarchy table. -/
def hierarchyPairs : List (MarkerId × MarkerId) :=
  (hierarchy.map (fun pc => pc.2.map (fun c => (pc.1, c)))).flatten

/-- Attach the bone of marker `child` under a parent at world position
`parentPos`: present exactly when `child` is placed, with position
`childPos - parentPos` (the source's `childPos.clone().sub(parentPos)`), and
with the given sub-hierarchy below it. -/
def attachChild (pos : MarkerConfig) (parentPos : Vec3) (child : MarkerId)
    (sub : Vec3 → List Bone) : List Bone :=
  match pos child with
  | none => []
  | some childPos => [.mk (boneName child) (childPos.sub parentPos) (sub childPos)]

/-- Models `createBoneHierarchy` from `auto-rigger-modal.tsx`: returns the root bone
of the synthesized hierarchy, or `none` when the groin marker is unplaced
(`if (!rootBone) return null`).  The root bone carries the groin marker's
absolute position; every reachable child carries its parent-relative offset. -/
def createBoneHierarchy (pos : MarkerConfig) : Option Bone :=
  match pos .groin with
  | none => none
  | some groinPos =>
    some (.mk (boneName .groin) groinPos
      (attachChild pos groinPos .neckBase (fun neckPos =>
          attachChild pos neckPos .chin (fun _ => []) ++
          attachChild pos neckPos .leftShoulder (fun shoulderPos =>
            attachChild pos shoulderPos .leftElbow (fun elbowPos =>
              attachChild pos elbowPos .leftWrist (fun _ => []))) ++
          attachChild pos neckPos .rightShoulder (fun shoulderPos =>
            attachChild pos shoulderPos .rightElbow (fun elbowPos =>
              attachChild pos elbowPos .rightWrist (fun _ => [])))) ++
        attachChild pos groinPos .leftKnee (fun kneePos =>
          attachChild pos kneePos .leftAnkle (fun _ => [])) ++
        attachChild pos groinPos .rightKnee (fun kneePos =>
          attachChild pos kneePos .rightAnkle (fun _ => []))))

/-! ## `handleGenerateBones` -/

/-- The scene/ref state touched by `handleGenerateBones`. -/
structure RigState where
  /-- Top-level objects of the scene (`sceneRef.current`), restricted to bone
  groups. -/
  scene : List Bone
  /-- Models `bonesGroupRef.current`. -/
  bonesGroup : Option Bone
  /-- Models `bonesGenerated` state flag. -/
  bonesGenerated : Bool
  /-- Whether the destructive "Error" toast has been shown. -/
  errorShown : Bool

/-- Models `handleGenerateBones` from `auto-rigger-modal.tsx`: synthesize the bone
hierarchy; on `null` show the error toast and return without touching the
scene; otherwise remove the previous bone group (if any), add the new root to
the scene, store it in `bonesGroupRef`, and set `bonesGenerated`. -/
def handleGenerateBones (pos : MarkerConfig) (s : RigState) : RigState :=
  match createBoneHierarchy pos with
  | none => { s with errorShown := true }
  | some root =>
    let scene1 :=
      match s.bonesGroup with
      | some g => s.scene.erase g
      | none => s.scene
    { scene := scene1 ++ [root]
      bonesGroup := some root
      bonesGenerated := true
      errorShown := s.errorShown }

/-- The initial staged marker positions from the `markers` state array of
`AutoRiggerModal` (used as a concrete sample configuration). -/
def demoPos : MarkerId → Vec3
  | .chin => ⟨0, 1/2, 3/10⟩
  | .neckBase => ⟨0, 3/10, 1/5⟩
  | .leftShoulder => ⟨-1/2, 3/10, 1/10⟩
  | .rightShoulder => ⟨1/2, 3/10, 1/10⟩
  | .leftElbow => ⟨-7/10, 0, 1/5⟩
  | .rightElbow => ⟨7/10, 0, 1/5⟩
  | .leftWrist => ⟨-4/5, -1/2, 1/5⟩
  | .rightWrist => ⟨4/5, -1/2, 1/5⟩
  | .groin => ⟨0, -7/10, 3/20⟩
  | .leftKnee => ⟨-1/5, -6/5, 1/5⟩
  | .rightKnee => ⟨1/5, -6/5, 1/5⟩
  | .leftAnkle => ⟨-1/5, -19/10, 1/10⟩
  | .rightAnkle => ⟨1/5, -19/10, 1/10⟩

/-! ## Motion clips and the animation runtime (3D viewer component)

`THREE.KeyframeTrack` and `THREE.AnimationClip` as observed by the runtime:
the runtime only ever reads track names, filters tracks, and rebuilds clips
from a track list; tracks themselves are treated as opaque data. -/

/-- A keyframe track: a target name plus opaque keyframe data. -/
structure KeyframeTrack where
  name : String
  times : List ℚ
  values : List ℚ
  deriving DecidableEq, Repr

/-- An animation clip. -/
structure AnimationClip where
  name : String
  duration : ℚ
  tracks : List KeyframeTrack
  deriving DecidableEq, Repr

/-- Does `pat` occur at the start of `s` (character lists)? -/
def chStarts : List Char → List Char → Bool
  | _, [] => true
  | [], _ :: _ => false
  | c :: cs, d :: ds => c == d && chStarts cs ds

/-- Does `pat` occur anywhere in `s` (character lists)? -/
def chContains : List Char → List Char → Bool
  | [], pat => pat.isEmpty
  | c :: cs, pat => chStarts (c :: cs) pat || chContains cs pat

/-- JavaScript `s.includes(pat)`: substring containment. -/
def strContains (s pat : String) : Bool :=
  chContains s.toList pat.toList

/-- JavaScript `s.startsWith(pat)`. -/
def strStarts (s pat : String) : Bool :=
  chStarts s.toList pat.toList

/-- The filter predicate of `createInPlaceClip`:
`track.name.includes(rootBoneName) && track.name.includes('.position')`. -/
def isRootPositionTrack (rootBoneName : String) (t : KeyframeTrack) : Bool :=
  strContains t.name rootBoneName && strContains t.name ".position"

/-- Models `createInPlaceClip` from the 3D viewer: if no root bone was detected
(`rootBoneRef.current` is null) return the original clip unchanged; otherwise
build a new clip, named `originalClip.name + '_inPlace'` with the original
duration, keeping every track except position tracks of the root bone. -/
def createInPlaceClip (rootBone : Option String) (clip : AnimationClip) :
    AnimationClip :=
  match rootBone with
  | none => clip
  | some rootName =>
    { name := clip.name ++ "_inPlace"
      duration := clip.duration
      tracks := clip.tracks.filter (fun t => !(isRootPositionTrack rootName t)) }

/-- The playback state touched by the in-place toggle effect:
`originalAnimationClipRef`, the current action's clip and time, and the
play/pause state. -/
structure PlaybackState where
  originalClip : AnimationClip
  actionClip : AnimationClip
  time : ℚ
  playing : Bool
  deriving Repr

/-- The `useEffect([inPlace])` body from the 3D viewer, for the case where an
action exists: read the current time and play state, stop and uncache the old
action, create a new action on `createInPlaceClip(original)` (when switching
in-place on) or on the original clip (when switching off), restore the saved
time, and pause the new action unless playback was running.
`originalAnimationClipRef` is never written. -/
def toggleInPlace (rootBone : Option String) (inPlace : Bool)
    (s : PlaybackState) : PlaybackState :=
  let clipToUse := if inPlace then createInPlaceClip rootBone s.originalClip
    else s.originalClip
  { originalClip := s.originalClip
    actionClip := clipToUse
    time := s.time
    playing := s.playing }

/-- Run a sequence of in-place on/off toggles. -/
def toggleSeq (rootBone : Option String) (bs : List Bool) (s : PlaybackState) :
    PlaybackState :=
  bs.foldl (fun st b => toggleInPlace rootBone b st) s

/-! ## Animation loading and the compatibility gate (`onAnimationLoad`) -/

/-- The user-visible notices issued by the animation-load path. -/
inductive ToastKind where
  | noAnimations
  | incompatible
  | loaded
  | loadError
  deriving DecidableEq, Repr

/-- Outcome of `onAnimationLoad`: whether a `new THREE.AnimationMixer` was
created (and stored in `animationMixerRef`), the clip of the created action
(if any), whether playback started, and the toast shown. -/
structure AnimLoadResult where
  mixerCreated : Bool
  action : Option AnimationClip
  playing : Bool
  toast : ToastKind
  deriving DecidableEq, Repr

/-- The compatibility predicate of `onAnimationLoad`:
`clip.tracks.some(track => track.name.startsWith('mixamorig'))`. -/
def hasMixamoTracks (clip : AnimationClip) : Bool :=
  clip.tracks.any (fun t => strStarts t.name "mixamorig")

/-- Models `onAnimationLoad` from the 3D viewer: with no animations in the file,
show the "Sin animaciones" toast and stop; otherwise create the mixer, then
check `hasMixamoTracks` on `animations[0]`: on failure show the
"Animación incompatible" toast and return (no action, no playback); on success
create an action on the (possibly in-place filtered) clip and start playing. -/
def onAnimationLoad (inPlace : Bool) (rootBone : Option String)
    (animations : List AnimationClip) : AnimLoadResult :=
  match animations with
  | [] => ⟨false, none, false, .noAnimations⟩
  | clip :: _ =>
    if hasMixamoTracks clip then
      let clipToUse := if inPlace then createInPlaceClip rootBone clip else clip
      ⟨true, some clipToUse, true, .loaded⟩
    else
      ⟨true, none, false, .incompatible⟩

/-- Models `onError` of the animation-load path: the load-failure toast. -/
def onAnimationLoadError : AnimLoadResult :=
  ⟨false, none, false, .loadError⟩

/-- A clip none of whose track names carries the `mixamorig` prefix. -/
def incompatibleClip : AnimationClip :=
  ⟨"walk", 1, [⟨"Hips.position", [0], [0]⟩, ⟨"Spine.quaternion", [0], [0]⟩]⟩

/-! ## Playback-rate control (`handleSpeedChange`) -/

/-- The `timeScale` mapping of `handleSpeedChange`: below 50, map `0–50` to
`0.1–1.0`; from 50 on, map `50–100` to `1.0–3.0`. -/
def speedTimeScale (speed : ℚ) : ℚ :=
  if speed < 50 then 1/10 + (speed / 50) * (9/10)
  else 1 + ((speed - 50) / 50) * 2

/-! ## Model-load normalization (viewer `onLoad`; auto-rigger `onLoad`)

Both load callbacks compute the loaded object's bounding box, scale the object
uniformly to a target largest dimension (4 in the viewer, 3 in the auto
rigger), and position it so the feet sit on the grid at `y = -2`, centered in
X and Z. -/

/-- An axis-aligned bounding box (`THREE.Box3`). -/
structure Box3 where
  min : Vec3
  max : Vec3
  deriving DecidableEq, Repr

/-- Models `Box3.getSize`: `max - min`. -/
def boxSize (b : Box3) : Vec3 := b.max.sub b.min

/-- Models `Box3.getCenter`: `(min + max) * 0.5`. -/
def boxCenter (b : Box3) : Vec3 := Vec3.smul (1/2) (b.min.add b.max)

/-- The largest box dimension, `Math.max(size.x, size.y, size.z)`. -/
def boxMaxDim (b : Box3) : ℚ :=
  max (boxSize b).x (max (boxSize b).y (boxSize b).z)

/-- The normalization step of the load callbacks, pure part: from the loaded
object's bounding box, compute the uniform scale `targetSize / maxDim`
(`targetSize` is 4 in the viewer's `onLoad`, 3 in the auto rigger's) and the
position `(-scaledCenter.x, gridY - scaledMin.y, -scaledCenter.z)` with
`gridY = -2`. -/
def normalizeModel (targetSize : ℚ) (b : Box3) : ℚ × Vec3 :=
  let center := boxCenter b
  let maxDim := boxMaxDim b
  let scale := targetSize / maxDim
  let scaledMin := Vec3.smul scale b.min
  let scaledCenter := Vec3.smul scale center
  (scale, ⟨-scaledCenter.x, -2 - scaledMin.y, -scaledCenter.z⟩)

/-- The bounding box of an object after a uniform scale `s ≥ 0` and a
translation `t` (what recomputing `Box3.setFromObject` yields). -/
def transformBox (b : Box3) (s : ℚ) (t : Vec3) : Box3 :=
  ⟨(Vec3.smul s b.min).add t, (Vec3.smul s b.max).add t⟩

/-! ## Request-id fencing of model loads

The viewer's model-load effect runs `const requestId = ++loadRequestIdRef.current`
when a load is issued; its `onLoad` callback checks
`if (requestId !== loadRequestIdRef.current)` and, for a stale result, disposes
the loaded object's geometries and materials and returns without touching the
scene; otherwise it installs the object into the scene.  (The skeleton-replacer
modal's `loadModel` performs the same check.) -/

/-- The shared state of the load fencing mechanism.  `scene` holds the
`(requestId, model)` currently installed; `disposed` records models whose GPU
resources were released on stale arrival.  Models are abstract handles. -/
structure LoaderState where
  nextId : ℕ
  scene : Option (ℕ × ℕ)
  disposed : List ℕ
  deriving DecidableEq, Repr

/-- Events of the load pipeline: issuing a new load request
(`++loadRequestIdRef.current`), or an in-flight request `id` resolving with
`model`. -/
inductive LoadEvent where
  | issue
  | resolve (id : ℕ) (model : ℕ)
  deriving DecidableEq, Repr

/-- One step of the load pipeline: issuing increments the request counter (the
new request's id is the incremented counter); a resolving request installs its
model only when its id is still current, and otherwise disposes it. -/
def loadStep (s : LoaderState) (e : LoadEvent) : LoaderState :=
  match e with
  | .issue => { s with nextId := s.nextId + 1 }
  | .resolve id model =>
    if id ≠ s.nextId then { s with disposed := model :: s.disposed }
    else { s with scene := some (id, model) }

/-! ## Pose math for the enthusiasm control (per-frame `animate` block)

The per-frame enthusiasm block blends or extrapolates every non-root bone's
pose between its captured neutral pose and the live animated pose.  This part
of the source calls trigonometric functions, so it is modelled over the real
numbers. -/

/-- Three-dimensional vector with real coordinates. -/
@[ext]
structure Vec3R where
  x : ℝ
  y : ℝ
  z : ℝ

/-- A quaternion (`THREE.Quaternion`). -/
@[ext]
structure Quat where
  x : ℝ
  y : ℝ
  z : ℝ
  w : ℝ

/-- A bone pose as captured in `neutralPoseRef`: position and rotation. -/
@[ext]
structure PoseR where
  position : Vec3R
  rotation : Quat

/-- Models `Vector3.add` over ℝ. -/
def vaddR (a b : Vec3R) : Vec3R := ⟨a.x + b.x, a.y + b.y, a.z + b.z⟩

/-- Models `Vector3.sub` over ℝ. -/
def vsubR (a b : Vec3R) : Vec3R := ⟨a.x - b.x, a.y - b.y, a.z - b.z⟩

/-- Models `Vector3.multiplyScalar` over ℝ. -/
def vsmulR (k : ℝ) (a : Vec3R) : Vec3R := ⟨k * a.x, k * a.y, k * a.z⟩

/-- Models `Vector3.lerpVectors(v1, v2, alpha)`: `v1 + (v2 - v1) * alpha`
componentwise. -/
def lerpVectors (v1 v2 : Vec3R) (alpha : ℝ) : Vec3R :=
  ⟨ v1.x + (v2.x - v1.x) * alpha,
    v1.y + (v2.y - v1.y) * alpha,
    v1.z + (v2.z - v1.z) * alpha ⟩

/-- Models `Quaternion.multiplyQuaternions(a, b)`. -/
def quatMul (a b : Quat) : Quat :=
  ⟨ a.x * b.w + a.w * b.x + a.y * b.z - a.z * b.y,
    a.y * b.w + a.w * b.y + a.z * b.x - a.x * b.z,
    a.z * b.w + a.w * b.z + a.x * b.y - a.y * b.x,
    a.w * b.w - a.x * b.x - a.y * b.y - a.z * b.z ⟩

/-- Models `Quaternion.invert()`, which three.js implements as the conjugate. -/
def quatConj (q : Quat) : Quat := ⟨-q.x, -q.y, -q.z, q.w⟩

/-- Models `Quaternion.length()`. -/
noncomputable def quatLength (q : Quat) : ℝ :=
  Real.sqrt (q.x * q.x + q.y * q.y + q.z * q.z + q.w * q.w)

open Classical in
/-- Models `Quaternion.normalize()`: the zero quaternion normalizes to the identity,
anything else is scaled by the inverse length. -/
noncomputable def quatNormalize (q : Quat) : Quat :=
  if quatLength q = 0 then ⟨0, 0, 0, 1⟩
  else
    let l := 1 / quatLength q
    ⟨q.x * l, q.y * l, q.z * l, q.w * l⟩

/-- Models `Quaternion.setFromAxisAngle(axis, angle)` (axis assumed normalized). -/
noncomputable def quatFromAxisAngle (axis : Vec3R) (angle : ℝ) : Quat :=
  let halfAngle := angle / 2
  let s := Real.sin halfAngle
  ⟨axis.x * s, axis.y * s, axis.z * s, Real.cos halfAngle⟩

open Classical in
/-- JavaScript `Math.atan2`. -/
noncomputable def atan2 (y x : ℝ) : ℝ :=
  if 0 < x then Real.arctan (y / x)
  else if x < 0 then
    if 0 ≤ y then Real.arctan (y / x) + Real.pi
    else Real.arctan (y / x) - Real.pi
  else
    if 0 < y then Real.pi / 2
    else if y < 0 then -(Real.pi / 2)
    else 0

open Classical in
/-- Models `Quaternion.slerp(qb, t)` invoked as `slerpQuaternions(qa, qb, t)` =
`copy(qa).slerp(qb, t)`: early return of `qa` at `t = 0` and of `qb` at
`t = 1`; shortest-path sign flip of the target; early return of `qa` when the
quaternions are (anti)parallel; linear interpolation plus renormalization when
the angle is below `Number.EPSILON`; spherical interpolation otherwise. -/
noncomputable def slerpQuaternions (qa qb : Quat) (t : ℝ) : Quat :=
  if t = 0 then qa
  else if t = 1 then qb
  else
    let cosHalfTheta0 := qa.w * qb.w + qa.x * qb.x + qa.y * qb.y + qa.z * qb.z
    let target := if cosHalfTheta0 < 0 then Quat.mk (-qb.x) (-qb.y) (-qb.z) (-qb.w) else qb
    let cosHalfTheta := if cosHalfTheta0 < 0 then -cosHalfTheta0 else cosHalfTheta0
    if 1 ≤ cosHalfTheta then qa
    else
      let sqrSinHalfTheta := 1 - cosHalfTheta * cosHalfTheta
      if sqrSinHalfTheta ≤ (2 : ℝ)^(-52 : ℤ) then
        let s := 1 - t
        quatNormalize ⟨s * qa.x + t * target.x, s * qa.y + t * target.y,
          s * qa.z + t * target.z, s * qa.w + t * target.w⟩
      else
        let sinHalfTheta := Real.sqrt sqrSinHalfTheta
        let halfTheta := atan2 sinHalfTheta cosHalfTheta
        let ratioA := Real.sin ((1 - t) * halfTheta) / sinHalfTheta
        let ratioB := Real.sin (t * halfTheta) / sinHalfTheta
        ⟨ qa.x * ratioA + target.x * ratioB, qa.y * ratioA + target.y * ratioB,
          qa.z * ratioA + target.z * ratioB, qa.w * ratioA + target.w * ratioB ⟩

/-- The enthusiasm blend-factor mapping of the `animate` block: below 50, map
`0–50` to `0.2–1.0`; from 50 on, map `50–100` to `1.0–2.0`. -/
def enthusiasmFactor (e : ℚ) : ℚ :=
  if e < 50 then 1/5 + (e / 50) * (4/5)
  else 1 + ((e - 50) / 50) * 1

/-- The `enthusiasmFactor <= 1.0` branch of the enthusiasm block: slerp the
rotation and lerp the position from the neutral pose toward the animated
pose. -/
noncomputable def blendBone (factor : ℝ) (neutral current : PoseR) : PoseR :=
  { position := lerpVectors neutral.position current.position factor
    rotation := slerpQuaternions neutral.rotation current.rotation factor }

/-- The delta quaternion of the extrapolation branch:
`neutral^-1 * current`, normalized. -/
noncomputable def deltaQuat (nr cr : Quat) : Quat :=
  quatNormalize (quatMul (quatConj nr) cr)

/-- The clamped `acos` argument of the extrapolation branch:
`Math.max(-1, Math.min(1, deltaQ.w))`. -/
def clampAcosArg (w : ℝ) : ℝ := max (-1) (min 1 w)

/-- Models `const halfAngle = Math.acos(Math.max(-1, Math.min(1, deltaQ.w)))`. -/
noncomputable def halfAngleOf (nr cr : Quat) : ℝ :=
  Real.arccos (clampAcosArg (deltaQuat nr cr).w)

/-- Models `const sinHalfAngle = Math.sin(halfAngle)`. -/
noncomputable def sinHalfAngleOf (nr cr : Quat) : ℝ :=
  Real.sin (halfAngleOf nr cr)

open Classical in
/-- The rotation part of the `enthusiasmFactor > 1.0` extrapolation branch:
when `sinHalfAngle` exceeds the `0.0001` guard, extract the axis by dividing
by `sinHalfAngle`, scale the angle by the factor, and reapply relative to the
neutral rotation; otherwise keep the neutral rotation. -/
noncomputable def extrapolateRotation (factor : ℝ) (nr cr : Quat) : Quat :=
  let deltaQ := deltaQuat nr cr
  let sinHalfAngle := sinHalfAngleOf nr cr
  if sinHalfAngle > 0.0001 then
    let axis : Vec3R := ⟨deltaQ.x / sinHalfAngle, deltaQ.y / sinHalfAngle,
      deltaQ.z / sinHalfAngle⟩
    let scaledAngle := 2 * halfAngleOf nr cr * factor
    quatMul nr (quatFromAxisAngle axis scaledAngle)
  else nr

/-- The full `enthusiasmFactor > 1.0` branch: extrapolated rotation, and the
position extrapolated linearly as `neutral + (current - neutral) * factor`. -/
noncomputable def extrapolateBone (factor : ℝ) (neutral current : PoseR) : PoseR :=
  { position := vaddR neutral.position
      (vsmulR factor (vsubR current.position neutral.position))
    rotation := extrapolateRotation factor neutral.rotation current.rotation }

open Classical in
/-- The per-bone outcome of the enthusiasm block of `animate`: the whole block
is skipped when the control sits at 50 (`animationEnthusiasm !== 50`); bones
whose parent is not a bone are skipped (`bone.parent && bone.parent.isBone`);
otherwise the pose is blended for factors ≤ 1 and extrapolated for factors
above 1.  `current` is the pose the animation mixer wrote this frame. -/
noncomputable def applyEnthusiasmBone (enthusiasm : ℚ) (isNonRootBone : Bool)
    (neutral current : PoseR) : PoseR :=
  if enthusiasm = 50 then current
  else if isNonRootBone = false then current
  else
    let factor : ℝ := ((enthusiasmFactor enthusiasm : ℚ) : ℝ)
    if factor ≤ 1 then blendBone factor neutral current
    else extrapolateBone factor neutral current

/-! ## Marker dragging (`handleMouseMove`, auto-rigger-modal.tsx)

While a marker is captured, the handler raycasts against the model; with a
surface hit the marker snaps to the nearest intersection (`intersects[0]`,
three.js returns intersections sorted by distance).  Otherwise it builds a
plane through the marker's current position perpendicular to the camera's
world direction and calls `ray.intersectPlane(plane, intersection)` on a
freshly constructed `intersection = new THREE.Vector3()` — which three.js
leaves untouched (at its `(0,0,0)` initialization) when there is no
intersection, returning `null`.  The subsequent `if (intersection)` tests the
vector object, which is always truthy, so the `else { return; }` branch is
dead code and the marker is assigned the target vector's value in every
case. -/

/-- Models `THREE.Plane`: the set of points `p` with `normal · p + constant = 0`. -/
structure PlaneQ where
  normal : Vec3
  constant : ℚ
  deriving DecidableEq, Repr

/-- Models `Plane.setFromNormalAndCoplanarPoint`: `constant = -point.dot(normal)`. -/
def planeFromNormalAndCoplanarPoint (normal point : Vec3) : PlaneQ :=
  ⟨normal, -(point.dot normal)⟩

/-- Models `THREE.Ray`: origin and direction. -/
structure RayQ where
  origin : Vec3
  dir : Vec3
  deriving DecidableEq, Repr

/-- Models `Ray.at(t)`: `direction * t + origin`. -/
def rayAt (ray : RayQ) (t : ℚ) : Vec3 :=
  (Vec3.smul t ray.dir).add ray.origin

/-- Models `Ray.distanceToPlane`: `null` when the ray is parallel to the plane and
off it, or when the intersection lies behind the origin. -/
def distanceToPlane (ray : RayQ) (plane : PlaneQ) : Option ℚ :=
  let denominator := plane.normal.dot ray.dir
  if denominator = 0 then
    if plane.normal.dot ray.origin + plane.constant = 0 then some 0 else none
  else
    let t := -(ray.origin.dot plane.normal + plane.constant) / denominator
    if 0 ≤ t then some t else none

/-- Models `Ray.intersectPlane`: the intersection point, when one exists. -/
def rayIntersectPlane (ray : RayQ) (plane : PlaneQ) : Option Vec3 :=
  match distanceToPlane ray plane with
  | none => none
  | some t => some (rayAt ray t)

/-- The dragged-marker branch of `handleMouseMove`: the new marker position.
With model-surface hits, the nearest hit.  Otherwise, the value of the
`intersection` target vector after `ray.intersectPlane(plane, intersection)`:
the intersection point when one exists, and the untouched `(0,0,0)`
initialization when `intersectPlane` returned `null` — because the
`if (intersection)` truthiness test never takes the `else { return; }`
branch. -/
def handleDragMove (surfaceHits : List Vec3) (markerPos : Vec3)
    (cameraDir : Vec3) (ray : RayQ) : Vec3 :=
  match surfaceHits with
  | p :: _ => p
  | [] =>
    let plane := planeFromNormalAndCoplanarPoint cameraDir markerPos
    match rayIntersectPlane ray plane with
    | some p => p
    | none => ⟨0, 0, 0⟩

/-! ## Theorems -/

/-- C1: with all 13 markers placed, `createBoneHierarchy` produces exactly 13
joints forming a single tree rooted at the groin joint; every `(parent, child)`
pair of the fixed hierarchy table yields a child joint whose stored offset is
the child marker's world position minus the parent marker's world position;
and the root joint's stored position is the groin marker's absolute position. -/
theorem createBoneHierarchy_allPlaced (p : MarkerId → Vec3) :
    ∃ root, createBoneHierarchy (fun m => some (p m)) = some root ∧
      root.name = boneName .groin ∧
      root.position = p .groin ∧
      countBones root = 13 ∧
      boneNames root =
        [ boneName .groin, boneName .neckBase, boneName .chin,
          boneName .leftShoulder, boneName .leftElbow, boneName .leftWrist,
          boneName .rightShoulder, boneName .rightElbow, boneName .rightWrist,
          boneName .leftKnee, boneName .leftAnkle,
          boneName .rightKnee, boneName .rightAnkle ] ∧
      ∀ pc ∈ hierarchyPairs,
        (findBone (boneName pc.2) root).map Bone.position =
          some ((p pc.2).sub (p pc.1)) := by
  simp only [createBoneHierarchy, attachChild]
  refine ⟨_, rfl, rfl, rfl, by simp [countBones, countBonesList], ?_, ?_⟩
  · simp [boneNames, boneNamesList]
  · intro pc hpc
    fin_cases hpc <;>
      simp [findBone, findBoneList, boneName, markerIdStr, capitalizeFirst, Bone.position]

/-- C1 witness: at the staged sample configuration, synthesis succeeds and the
left-wrist joint stores the offset (leftWrist marker − leftElbow marker). -/
theorem createBoneHierarchy_allPlaced_witness :
    ∃ root, createBoneHierarchy (fun m => some (demoPos m)) = some root ∧
      (findBone (boneName .leftWrist) root).map Bone.position =
        some ((demoPos .leftWrist).sub (demoPos .leftElbow)) := by
  obtain ⟨root, h1, _, _, _, _, h6⟩ := createBoneHierarchy_allPlaced demoPos
  exact ⟨root, h1, h6 (.leftElbow, .leftWrist) (by decide)⟩

/-- C2: when the groin marker is unplaced, `createBoneHierarchy` returns
`null`, and `handleGenerateBones` shows the error toast and leaves the scene,
`bonesGroupRef`, and the `bonesGenerated` flag unchanged (the previously
synthesized skeleton, if any, survives). -/
theorem missingRoot_failure (pos : MarkerConfig) (s : RigState)
    (h : pos .groin = none) :
    createBoneHierarchy pos = none ∧
      (handleGenerateBones pos s).scene = s.scene ∧
      (handleGenerateBones pos s).bonesGroup = s.bonesGroup ∧
      (handleGenerateBones pos s).bonesGenerated = s.bonesGenerated ∧
      (handleGenerateBones pos s).errorShown = true := by
  have h1 : createBoneHierarchy pos = none := by
    unfold createBoneHierarchy
    rw [h]
  refine ⟨h1, ?_, ?_, ?_, ?_⟩ <;> simp [handleGenerateBones, h1]

/-- C2 witness: with no marker placed and a previously synthesized one-bone
skeleton in the scene, generation reports the error and changes nothing. -/
theorem missingRoot_failure_witness :
    (handleGenerateBones (fun _ => none)
        ⟨[.mk "old" ⟨0, 0, 0⟩ []], some (.mk "old" ⟨0, 0, 0⟩ []), true, false⟩).scene =
      [.mk "old" ⟨0, 0, 0⟩ []] ∧
    (handleGenerateBones (fun _ => none)
        ⟨[.mk "old" ⟨0, 0, 0⟩ []], some (.mk "old" ⟨0, 0, 0⟩ []), true, false⟩).bonesGroup =
      some (.mk "old" ⟨0, 0, 0⟩ []) := by
  obtain ⟨-, h2, h3, -, -⟩ :=
    missingRoot_failure (fun _ => none)
      ⟨[.mk "old" ⟨0, 0, 0⟩ []], some (.mk "old" ⟨0, 0, 0⟩ []), true, false⟩ rfl
  exact ⟨h2, h3⟩

theorem toggleSeq_invariant (rootBone : Option String) (bs : List Bool)
    (s : PlaybackState) :
    (toggleSeq rootBone bs s).originalClip = s.originalClip ∧
      (toggleSeq rootBone bs s).time = s.time ∧
      (toggleSeq rootBone bs s).playing = s.playing := by
  induction bs generalizing s with
  | nil => exact ⟨rfl, rfl, rfl⟩
  | cons b bs ih =>
    simpa [toggleSeq, toggleInPlace] using ih (toggleInPlace rootBone b s)

/-- C3: over any sequence of in-place toggles the original clip is never
mutated (name, duration, track list — hence track names and count — are
preserved), every toggle re-applies a clip at the previous playback time with
the previous play/pause state, and toggling off afterwards restores an action
whose clip is exactly the original (same track list, names, and count). -/
theorem inPlace_toggle_sound (rootBone : Option String) (bs : List Bool)
    (s : PlaybackState) :
    (toggleSeq rootBone bs s).originalClip = s.originalClip ∧
      (toggleSeq rootBone bs s).time = s.time ∧
      (toggleSeq rootBone bs s).playing = s.playing ∧
      (toggleInPlace rootBone false (toggleSeq rootBone bs s)).actionClip =
        s.originalClip ∧
      (toggleInPlace rootBone false (toggleSeq rootBone bs s)).actionClip.tracks.map
          KeyframeTrack.name =
        s.originalClip.tracks.map KeyframeTrack.name ∧
      (toggleInPlace rootBone false (toggleSeq rootBone bs s)).actionClip.tracks.length =
        s.originalClip.tracks.length := by
  obtain ⟨h1, h2, h3⟩ := toggleSeq_invariant rootBone bs s
  have h4 : (toggleInPlace rootBone false (toggleSeq rootBone bs s)).actionClip =
      s.originalClip := by
    simp [toggleInPlace, h1]
  exact ⟨h1, h2, h3, h4, by rw [h4], by rw [h4]⟩

/-- C4 counterexample: the claim asserts that rejecting a prefix-free clip
creates "no mixer or action"; but `onAnimationLoad` creates and stores the
mixer before the compatibility gate, so on this concrete incompatible clip the
mixer exists even though the clip is rejected. -/
theorem onAnimationLoad_claim_false :
    hasMixamoTracks incompatibleClip = false ∧
      (onAnimationLoad false none [incompatibleClip]).toast = .incompatible ∧
      (onAnimationLoad false none [incompatibleClip]).mixerCreated = true := by
  decide

/-- C4 (amended): a loaded clip is accepted — an action is created and playback
starts — exactly when some track name carries the `mixamorig` prefix; when no
track does, the incompatibility toast (distinct from the load-failure toast) is
shown, playback does not start, and no action is created, though a fresh mixer
has already been created and stored before the gate. -/
theorem onAnimationLoad_gate (inPlace : Bool) (rootBone : Option String)
    (clip : AnimationClip) (rest : List AnimationClip) :
    (onAnimationLoad inPlace rootBone (clip :: rest)).action.isSome =
        hasMixamoTracks clip ∧
      (onAnimationLoad inPlace rootBone (clip :: rest)).playing =
        hasMixamoTracks clip ∧
      (hasMixamoTracks clip = false →
        (onAnimationLoad inPlace rootBone (clip :: rest)).toast = .incompatible ∧
          (onAnimationLoad inPlace rootBone (clip :: rest)).toast ≠
            onAnimationLoadError.toast ∧
          (onAnimationLoad inPlace rootBone (clip :: rest)).action = none ∧
          (onAnimationLoad inPlace rootBone (clip :: rest)).playing = false ∧
          (onAnimationLoad inPlace rootBone (clip :: rest)).mixerCreated = true) := by
  cases h : hasMixamoTracks clip <;>
    simp [onAnimationLoad, h, onAnimationLoadError]

/-- C4 witness: the amended gate instantiated at the concrete incompatible
clip. -/
theorem onAnimationLoad_gate_witness :
    (onAnimationLoad false none [incompatibleClip]).toast = .incompatible ∧
      (onAnimationLoad false none [incompatibleClip]).action = none := by
  obtain ⟨-, -, h3⟩ := onAnimationLoad_gate false none incompatibleClip []
  obtain ⟨ha, -, hb, -, -⟩ := h3 (by decide)
  exact ⟨ha, hb⟩

/-- C9: the playback-rate control maps 0 to exactly 0.1, 50 to exactly 1.0 and
100 to exactly 3.0, and is the linear interpolation of the breakpoint values on
each of the two segments. -/
theorem speedTimeScale_mapping :
    speedTimeScale 0 = 1/10 ∧ speedTimeScale 50 = 1 ∧ speedTimeScale 100 = 3 ∧
      (∀ sp : ℚ, 0 ≤ sp → sp ≤ 50 →
        speedTimeScale sp = (1 - sp / 50) * (1/10) + (sp / 50) * 1) ∧
      (∀ sp : ℚ, 50 ≤ sp → sp ≤ 100 →
        speedTimeScale sp = (1 - (sp - 50) / 50) * 1 + ((sp - 50) / 50) * 3) := by
  refine ⟨by norm_num [speedTimeScale], by norm_num [speedTimeScale],
    by norm_num [speedTimeScale], ?_, ?_⟩
  · intro sp _ h2
    by_cases hsp : sp < 50
    · rw [speedTimeScale, if_pos hsp]
      ring
    · have : sp = 50 := le_antisymm h2 (not_lt.mp hsp)
      subst this
      norm_num [speedTimeScale]
  · intro sp h1 _
    rw [speedTimeScale, if_neg (not_lt.mpr h1)]
    ring

/-- C9 witness: midpoints of both segments, via the mapping theorem. -/
theorem speedTimeScale_mapping_witness :
    speedTimeScale 25 = (1 - 25 / 50) * (1/10) + (25 / 50) * 1 ∧
      speedTimeScale 75 = (1 - (75 - 50) / 50) * 1 + ((75 - 50) / 50) * 3 := by
  obtain ⟨-, -, -, h4, h5⟩ := speedTimeScale_mapping
  exact ⟨h4 25 (by norm_num) (by norm_num), h5 75 (by norm_num) (by norm_num)⟩

/-- C8: for every loaded model with a nondegenerate bounding box and a positive
target size, the normalization scale is positive and the recomputed bounding
box after scaling and repositioning has minimum Y exactly at the ground level
`-2` and center `X = 0`, `Z = 0`. -/
theorem normalizeModel_grounds (targetSize : ℚ) (b : Box3)
    (htarget : 0 < targetSize) (hdim : 0 < boxMaxDim b) :
    0 < (normalizeModel targetSize b).1 ∧
      (transformBox b (normalizeModel targetSize b).1
          (normalizeModel targetSize b).2).min.y = -2 ∧
      (boxCenter (transformBox b (normalizeModel targetSize b).1
          (normalizeModel targetSize b).2)).x = 0 ∧
      (boxCenter (transformBox b (normalizeModel targetSize b).1
          (normalizeModel targetSize b).2)).z = 0 := by
  refine ⟨div_pos htarget hdim, ?_, ?_, ?_⟩ <;>
    · simp only [normalizeModel, transformBox, boxSize, boxCenter,
        Vec3.smul, Vec3.add, Vec3.sub]
      ring

/-- C8 witness: a concrete 2×2×2 box normalized by the viewer's target size 4
lands with its feet at `y = -2` and centered in X and Z. -/
theorem normalizeModel_grounds_witness :
    (transformBox ⟨⟨-1, 0, -1⟩, ⟨1, 2, 1⟩⟩
        (normalizeModel 4 ⟨⟨-1, 0, -1⟩, ⟨1, 2, 1⟩⟩).1
        (normalizeModel 4 ⟨⟨-1, 0, -1⟩, ⟨1, 2, 1⟩⟩).2).min.y = -2 ∧
      (boxCenter (transformBox ⟨⟨-1, 0, -1⟩, ⟨1, 2, 1⟩⟩
          (normalizeModel 4 ⟨⟨-1, 0, -1⟩, ⟨1, 2, 1⟩⟩).1
          (normalizeModel 4 ⟨⟨-1, 0, -1⟩, ⟨1, 2, 1⟩⟩).2)).x = 0 := by
  obtain ⟨-, h2, h3, -⟩ :=
    normalizeModel_grounds 4 ⟨⟨-1, 0, -1⟩, ⟨1, 2, 1⟩⟩ (by norm_num)
      (by norm_num [boxMaxDim, boxSize, Vec3.sub])
  exact ⟨h2, h3⟩

theorem loadStep_nextId_le (s : LoaderState) (l : List LoadEvent) :
    s.nextId ≤ (l.foldl loadStep s).nextId := by
  induction l generalizing s with
  | nil => exact le_refl _
  | cons e rest ih =>
    refine le_trans ?_ (ih (loadStep s e))
    cases e with
    | issue => exact Nat.le_succ _
    | resolve id m =>
      by_cases h : id ≠ s.nextId <;> simp [loadStep, h]

theorem loadStep_nextId_lt_of_issue (s : LoaderState) (l : List LoadEvent)
    (h : LoadEvent.issue ∈ l) :
    s.nextId < (l.foldl loadStep s).nextId := by
  induction l generalizing s with
  | nil => exact absurd h (List.not_mem_nil _)
  | cons e rest ih =>
    rcases List.mem_cons.mp h with he | he
    · subst he
      exact lt_of_lt_of_le (Nat.lt_succ_self _)
        (loadStep_nextId_le (loadStep s .issue) rest)
    · refine lt_of_le_of_lt ?_ (ih (loadStep s e) he)
      cases e with
      | issue => exact Nat.le_succ _
      | resolve id m =>
        by_cases hid : id ≠ s.nextId <;> simp [loadStep, hid]

/-- C7: if load A is issued, then at least one newer load is issued before A
resolves, then when A resolves its result never reaches the scene and is
disposed on arrival; and in general a resolving load changes the scene only
when its request id is the most recently issued one. -/
theorem staleLoad_fencing (s0 : LoaderState) (mid : List LoadEvent) (mA : ℕ)
    (hB : LoadEvent.issue ∈ mid) :
    (loadStep (mid.foldl loadStep (loadStep s0 .issue))
        (.resolve (loadStep s0 .issue).nextId mA)).scene =
      (mid.foldl loadStep (loadStep s0 .issue)).scene ∧
    (loadStep (mid.foldl loadStep (loadStep s0 .issue))
        (.resolve (loadStep s0 .issue).nextId mA)).disposed =
      mA :: (mid.foldl loadStep (loadStep s0 .issue)).disposed ∧
    ∀ s : LoaderState, ∀ id m : ℕ,
      (loadStep s (.resolve id m)).scene ≠ s.scene → id = s.nextId := by
  have hlt : (loadStep s0 .issue).nextId <
      (mid.foldl loadStep (loadStep s0 .issue)).nextId :=
    loadStep_nextId_lt_of_issue (loadStep s0 .issue) mid hB
  have hne : (loadStep s0 .issue).nextId ≠
      (mid.foldl loadStep (loadStep s0 .issue)).nextId := ne_of_lt hlt
  have hne' := hne
  simp only [loadStep] at hne'
  refine ⟨?_, ?_, ?_⟩
  · simp [loadStep] at hne' ⊢
    simp [hne']
  · simp [loadStep] at hne' ⊢
    simp [hne']
  · intro s id m hch
    by_contra hid
    exact hch (by simp [loadStep, hid])

/-- C7 witness: A issued (id 1), then B issued, then A resolves with model 7:
the scene is untouched and model 7 is disposed. -/
theorem staleLoad_fencing_witness :
    (loadStep ([LoadEvent.issue].foldl loadStep (loadStep ⟨0, none, []⟩ .issue))
        (.resolve (loadStep ⟨0, none, []⟩ .issue).nextId 7)).scene =
      ([LoadEvent.issue].foldl loadStep (loadStep ⟨0, none, []⟩ .issue)).scene ∧
    (loadStep ([LoadEvent.issue].foldl loadStep (loadStep ⟨0, none, []⟩ .issue))
        (.resolve (loadStep ⟨0, none, []⟩ .issue).nextId 7)).disposed =
      7 :: ([LoadEvent.issue].foldl loadStep (loadStep ⟨0, none, []⟩ .issue)).disposed := by
  obtain ⟨h1, h2, -⟩ :=
    staleLoad_fencing ⟨0, none, []⟩ [LoadEvent.issue] 7 (by decide)
  exact ⟨h1, h2⟩

/-- C5: the enthusiasm control maps 0 to blend factor 0.2, 50 to 1.0 and 100
to 2.0, linearly interpolating the breakpoint values on each segment; at input
50 every bone keeps its unmodified animated pose; and at blend factor 0 the
blended pose is exactly the captured neutral pose (position and rotation). -/
theorem enthusiasm_control_sound :
    enthusiasmFactor 0 = 1/5 ∧ enthusiasmFactor 50 = 1 ∧ enthusiasmFactor 100 = 2 ∧
      (∀ e : ℚ, 0 ≤ e → e ≤ 50 →
        enthusiasmFactor e = (1 - e / 50) * (1/5) + (e / 50) * 1) ∧
      (∀ e : ℚ, 50 ≤ e → e ≤ 100 →
        enthusiasmFactor e = (1 - (e - 50) / 50) * 1 + ((e - 50) / 50) * 2) ∧
      (∀ (b : Bool) (neutral current : PoseR),
        applyEnthusiasmBone 50 b neutral current = current) ∧
      (∀ neutral current : PoseR, blendBone 0 neutral current = neutral) := by
  refine ⟨by norm_num [enthusiasmFactor], by norm_num [enthusiasmFactor],
    by norm_num [enthusiasmFactor], ?_, ?_, ?_, ?_⟩
  · intro e _ h2
    by_cases he : e < 50
    · rw [enthusiasmFactor, if_pos he]
      ring
    · have : e = 50 := le_antisymm h2 (not_lt.mp he)
      subst this
      norm_num [enthusiasmFactor]
  · intro e h1 _
    rw [enthusiasmFactor, if_neg (not_lt.mpr h1)]
    ring
  · intro b neutral current
    simp [applyEnthusiasmBone]
  · intro neutral current
    have hrot : slerpQuaternions neutral.rotation current.rotation 0 =
        neutral.rotation := by
      rw [slerpQuaternions, if_pos rfl]
    refine PoseR.ext ?_ hrot
    simp only [blendBone, lerpVectors]
    refine Vec3R.ext ?_ ?_ ?_ <;> ring

/-- C5 witness: the mapping theorem instantiated at the midpoint input 25, the
identity behaviour at input 50, and the neutral-pose behaviour of the blend at
factor 0, all at concrete poses. -/
theorem enthusiasm_control_sound_witness :
    enthusiasmFactor 25 = (1 - 25 / 50) * (1/5) + (25 / 50) * 1 ∧
      applyEnthusiasmBone 50 true ⟨⟨0, 0, 0⟩, ⟨0, 0, 0, 1⟩⟩
          ⟨⟨1, 2, 3⟩, ⟨0, 1, 0, 0⟩⟩ = ⟨⟨1, 2, 3⟩, ⟨0, 1, 0, 0⟩⟩ ∧
      blendBone 0 ⟨⟨4, 5, 6⟩, ⟨1, 0, 0, 0⟩⟩ ⟨⟨1, 2, 3⟩, ⟨0, 1, 0, 0⟩⟩ =
        ⟨⟨4, 5, 6⟩, ⟨1, 0, 0, 0⟩⟩ := by
  obtain ⟨-, -, -, h4, -, h6, h7⟩ := enthusiasm_control_sound
  exact ⟨h4 25 (by norm_num) (by norm_num), h6 true _ _, h7 _ _⟩

/-- C10: in the extrapolation branch, the `acos` argument is always clamped
into `[-1, 1]`; whenever the half-angle sine is at or below the `0.0001`
threshold the axis division is not performed and the rotation falls back to
the captured neutral rotation; and the division, when performed, has a
divisor strictly above the threshold, hence nonzero. -/
theorem extrapolation_guard_total :
    (∀ w : ℝ, -1 ≤ clampAcosArg w ∧ clampAcosArg w ≤ 1) ∧
      (∀ (factor : ℝ) (nr cr : Quat), sinHalfAngleOf nr cr ≤ 0.0001 →
        extrapolateRotation factor nr cr = nr) ∧
      (∀ nr cr : Quat, sinHalfAngleOf nr cr > 0.0001 →
        sinHalfAngleOf nr cr ≠ 0) := by
  refine ⟨?_, ?_, ?_⟩
  · intro w
    constructor
    · exact le_max_left _ _
    · exact max_le (by norm_num) (min_le_left _ _)
  · intro factor nr cr h
    rw [extrapolateRotation, if_neg (not_lt.mpr h)]
  · intro nr cr h
    have : (0 : ℝ) < sinHalfAngleOf nr cr := lt_trans (by norm_num) h
    exact ne_of_gt this

theorem deltaQuat_id :
    deltaQuat ⟨0, 0, 0, 1⟩ ⟨0, 0, 0, 1⟩ = ⟨0, 0, 0, 1⟩ := by
  have hlen : quatLength ⟨0, 0, 0, 1⟩ = 1 := by
    simp [quatLength]
  have hmul : quatMul (quatConj ⟨0, 0, 0, 1⟩) ⟨0, 0, 0, 1⟩ = ⟨0, 0, 0, 1⟩ := by
    simp only [quatConj, quatMul]
    refine Quat.ext ?_ ?_ ?_ ?_ <;> norm_num
  rw [deltaQuat, hmul, quatNormalize]
  rw [if_neg (by rw [hlen]; norm_num)]
  simp only [hlen]
  refine Quat.ext ?_ ?_ ?_ ?_ <;> norm_num

theorem sinHalfAngleOf_id : sinHalfAngleOf ⟨0, 0, 0, 1⟩ ⟨0, 0, 0, 1⟩ = 0 := by
  rw [sinHalfAngleOf, halfAngleOf, deltaQuat_id]
  have : clampAcosArg (1 : ℝ) = 1 := by
    rw [clampAcosArg]
    norm_num
  rw [this, Real.arccos_one, Real.sin_zero]

/-- C10 witness: at the identity delta (neutral = current = identity
quaternion) the half-angle sine is 0, below the guard, and extrapolation at
factor 2 keeps the neutral rotation. -/
theorem extrapolation_guard_total_witness :
    sinHalfAngleOf ⟨0, 0, 0, 1⟩ ⟨0, 0, 0, 1⟩ ≤ 0.0001 ∧
      extrapolateRotation 2 ⟨0, 0, 0, 1⟩ ⟨0, 0, 0, 1⟩ = ⟨0, 0, 0, 1⟩ := by
  have h : sinHalfAngleOf ⟨0, 0, 0, 1⟩ ⟨0, 0, 0, 1⟩ ≤ 0.0001 := by
    rw [sinHalfAngleOf_id]
    norm_num
  exact ⟨h, (extrapolation_guard_total.2.1) 2 _ _ h⟩

/-- C6 (code bug): at a concrete drag event where the pointer ray hits neither
the model surface (no hits) nor the marker's camera-perpendicular plane (the
ray is parallel to it and off it), the code moves the marker to the origin
`(0,0,0)` — the untouched target-vector initialization — instead of leaving it
unchanged at `(5,5,5)` as the dead `else { return; }` branch intended. -/
theorem handleDragMove_dead_noop_branch :
    rayIntersectPlane ⟨⟨0, 0, 10⟩, ⟨1, 0, 0⟩⟩
        (planeFromNormalAndCoplanarPoint ⟨0, 0, -1⟩ ⟨5, 5, 5⟩) = none ∧
      handleDragMove [] ⟨5, 5, 5⟩ ⟨0, 0, -1⟩ ⟨⟨0, 0, 10⟩, ⟨1, 0, 0⟩⟩ = ⟨0, 0, 0⟩ ∧
      handleDragMove [] ⟨5, 5, 5⟩ ⟨0, 0, -1⟩ ⟨⟨0, 0, 10⟩, ⟨1, 0, 0⟩⟩ ≠ ⟨5, 5, 5⟩ := by
  refine ⟨?_, ?_, ?_⟩ <;>
    norm_num [handleDragMove, rayIntersectPlane, distanceToPlane,
      planeFromNormalAndCoplanarPoint, Vec3.dot, rayAt, Vec3.smul, Vec3.add]

end Editor3D
